import Mathlib

/-!
Verification development for the ILN Advanced Application (`app.py`), a
FastAPI service exposing `/health`, `/capabilities`, `/metrics`,
`/process-advanced`, `/stress-test/{iterations}` and a monitoring
websocket.  The Python source is shallowly embedded below: pure helpers
become Lean functions, the mutable `performance_metrics` dictionary
becomes explicit state passing, wall-clock durations (`time.time()`
differences) become rational parameters, the nondeterministic
completion order of `concurrent.futures.as_completed` becomes a
permutation relation, and Python exceptions (`HTTPException`,
`ZeroDivisionError`, pydantic validation errors) become `Except`
results.
-/

namespace ILN

/-! ## 32-bit word arithmetic (FIPS 180-4 building blocks)

The Python fallback of `ILNEssenceEngine.own_secure` computes
`hashlib.sha256(data.encode()).hexdigest()[:16]`.  We embed SHA-256
itself so that the claim about the truncated digest is about the real
function, with 32-bit words represented as `Nat` reduced mod `2 ^ 32`. -/

/-- `2 ^ 32`, the modulus for 32-bit words. -/
def M32 : Nat := 4294967296

/-- Truncated 32-bit addition. -/
def add32 (a b : Nat) : Nat := (a + b) % M32

/-- Right rotation of a 32-bit word by `n` bits. -/
def rotr32 (n x : Nat) : Nat := (x / 2 ^ n + x % 2 ^ n * 2 ^ (32 - n)) % M32

/-- Logical right shift of a 32-bit word by `n` bits. -/
def shr32 (n x : Nat) : Nat := x / 2 ^ n

/-- Bitwise complement within 32 bits. -/
def not32 (x : Nat) : Nat := Nat.xor x (M32 - 1)

/-- SHA-256 big sigma-0. -/
def bigSigma0 (x : Nat) : Nat := Nat.xor (Nat.xor (rotr32 2 x) (rotr32 13 x)) (rotr32 22 x)

/-- SHA-256 big sigma-1. -/
def bigSigma1 (x : Nat) : Nat := Nat.xor (Nat.xor (rotr32 6 x) (rotr32 11 x)) (rotr32 25 x)

/-- SHA-256 small sigma-0. -/
def smallSigma0 (x : Nat) : Nat := Nat.xor (Nat.xor (rotr32 7 x) (rotr32 18 x)) (shr32 3 x)

/-- SHA-256 small sigma-1. -/
def smallSigma1 (x : Nat) : Nat := Nat.xor (Nat.xor (rotr32 17 x) (rotr32 19 x)) (shr32 10 x)

/-- SHA-256 choice function. -/
def chFn (e f g : Nat) : Nat := Nat.xor (Nat.land e f) (Nat.land (not32 e) g)

/-- SHA-256 majority function. -/
def majFn (a b c : Nat) : Nat :=
  Nat.xor (Nat.xor (Nat.land a b) (Nat.land a c)) (Nat.land b c)

/-- The 64 SHA-256 round constants, written in decimal. -/
def sha256K : List Nat :=
  [1116352408, 1899447441, 3049323471, 3921009573, 961987163, 1508970993,
   2453635748, 2870763221, 3624381080, 310598401, 607225278, 1426881987,
   1925078388, 2162078206, 2614888103, 3248222580, 3835390401, 4022224774,
   264347078, 604807628, 770255983, 1249150122, 1555081692, 1996064986,
   2554220882, 2821834349, 2952996808, 3210313671, 3336571891, 3584528711,
   113926993, 338241895, 666307205, 773529912, 1294757372, 1396182291,
   1695183700, 1986661051, 2177026350, 2456956037, 2730485921, 2820302411,
   3259730800, 3345764771, 3516065817, 3600352804, 4094571909, 275423344,
   430227734, 506948616, 659060556, 883997877, 958139571, 1322822218,
   1537002063, 1747873779, 1955562222, 2024104815, 2227730452, 2361852424,
   2428436474, 2756734187, 3204031479, 3329325298]

/-- A big-endian 8-byte encoding of a length in bits. -/
def toBE64 (n : Nat) : List Nat :=
  [n / 2 ^ 56 % 256, n / 2 ^ 48 % 256, n / 2 ^ 40 % 256, n / 2 ^ 32 % 256,
   n / 2 ^ 24 % 256, n / 2 ^ 16 % 256, n / 2 ^ 8 % 256, n % 256]

/-- SHA-256 padding: append `0x80`, zero bytes up to 56 mod 64, then the
bit length as 8 big-endian bytes. -/
def padMessage (ms : List Nat) : List Nat :=
  ms ++ 0x80 :: List.replicate ((119 - ms.length % 64) % 64) 0 ++ toBE64 (8 * ms.length)

/-- Big-endian interpretation of a list of bytes as one word. -/
def bytesToWord (bs : List Nat) : Nat := bs.foldl (fun acc b => acc * 256 + b) 0

/-- The 16 initial message-schedule words of a 64-byte block. -/
def blockWords (block : List Nat) : List Nat :=
  (List.range 16).map fun i => bytesToWord ((block.drop (4 * i)).take 4)

/-- One message-schedule extension step: append word `t` from words
`t-2`, `t-7`, `t-15`, `t-16`. -/
def scheduleStep (w : List Nat) : List Nat :=
  w ++ [add32 (add32 (smallSigma1 (w.getD (w.length - 2) 0)) (w.getD (w.length - 7) 0))
             (add32 (smallSigma0 (w.getD (w.length - 15) 0)) (w.getD (w.length - 16) 0))]

/-- The eight 32-bit working variables of the SHA-256 compression. -/
structure Hash8 where
  a : Nat
  b : Nat
  c : Nat
  d : Nat
  e : Nat
  f : Nat
  g : Nat
  h : Nat

/-- One SHA-256 compression round with round constant `k` and schedule
word `w`. -/
def sha256Round (st : Hash8) (k w : Nat) : Hash8 :=
  let t1 := add32 (add32 (add32 st.h (bigSigma1 st.e)) (add32 (chFn st.e st.f st.g) k)) w
  let t2 := add32 (bigSigma0 st.a) (majFn st.a st.b st.c)
  ⟨add32 t1 t2, st.a, st.b, st.c, add32 st.d t1, st.e, st.f, st.g⟩

/-- Compress one 64-byte block into the running hash value. -/
def compressBlock (hs : Hash8) (block : List Nat) : Hash8 :=
  let w := Nat.iterate scheduleStep 48 (blockWords block)
  let fin := (List.range 64).foldl (fun st t => sha256Round st (sha256K.getD t 0) (w.getD t 0)) hs
  ⟨add32 hs.a fin.a, add32 hs.b fin.b, add32 hs.c fin.c, add32 hs.d fin.d,
   add32 hs.e fin.e, add32 hs.f fin.f, add32 hs.g fin.g, add32 hs.h fin.h⟩

/-- SHA-256 of a byte list, as the eight final 32-bit words. -/
def sha256Words (ms : List Nat) : List Nat :=
  let padded := padMessage ms
  let blocks := (List.range (padded.length / 64)).map fun i => (padded.drop (64 * i)).take 64
  let hf := blocks.foldl compressBlock
    ⟨1779033703, 3144134277, 1013904242, 2773480762,
     1359893119, 2600822924, 528734635, 1541459225⟩
  [hf.a, hf.b, hf.c, hf.d, hf.e, hf.f, hf.g, hf.h]

/-- Lower-case hex digit for a value below 16. -/
def hexChar (n : Nat) : Char := if n < 10 then Char.ofNat (48 + n) else Char.ofNat (87 + n)

/-- Eight lower-case hex digits of a 32-bit word, most significant first. -/
def wordToHex (w : Nat) : List Char := (List.range 8).map fun i => hexChar (w / 16 ^ (7 - i) % 16)

/-- The 64-character lower-case hex digest of SHA-256, as
`hashlib.sha256(...).hexdigest()` produces it. -/
def sha256Hex (ms : List Nat) : String := String.mk ((sha256Words ms).map wordToHex).flatten

/-- UTF-8 encoding of one code point. -/
def utf8Bytes (c : Nat) : List Nat :=
  if c < 128 then [c]
  else if c < 2048 then [192 + c / 64, 128 + c % 64]
  else if c < 65536 then [224 + c / 4096, 128 + c / 64 % 64, 128 + c % 64]
  else [240 + c / 262144, 128 + c / 4096 % 64, 128 + c / 64 % 64, 128 + c % 64]

/-- UTF-8 encoding of a string, as Python `str.encode` produces it. -/
def utf8Encode (s : String) : List Nat := (s.data.map fun ch => utf8Bytes ch.toNat).flatten

/-! ## Capability detection and the essence engine

`ILNCapabilityDetector` probes `ctypes.CDLL` for optional Rust and Go
shared objects; the outcome is a record of booleans.  Whether a native
call is attempted, and whether an attempted native call raises, are
environment facts, so they enter the embedding as parameters: the
capability record, and an `Option` native outcome where `none` models
an invocation that raises. -/

/-- The `capabilities` dictionary of `ILNCapabilityDetector`. -/
structure Capabilities where
  rust : Bool
  go : Bool
  python : Bool
  native_libs : Bool
  async_support : Bool
  database_support : Bool

/-- The result record of `ILNEssenceEngine.own_secure` (wall-clock
timing fields elided: every claim is timing-independent). -/
structure SecResult where
  secure_hash : String
  length : Nat
  engine : String

/-- The Python fallback branch of `own_secure`: the first 16 hex
characters of the SHA-256 digest of the UTF-8 encoded input, the input
length, and the `python_fallback` engine tag. -/
def ownSecureFallback (data : String) : SecResult :=
  { secure_hash := (sha256Hex (utf8Encode data)).take 16
    length := data.length
    engine := "python_fallback" }

/-- `ILNEssenceEngine.own_secure`: attempt the native Rust call only
when the Rust capability is present and the mode is `secure` or
`balanced`; a raising native call (`native = none`) falls back. -/
def own_secure (caps : Capabilities) (native : Option SecResult)
    (data : String) (mode : String) : SecResult :=
  if caps.rust = true ∧ (mode = "secure" ∨ mode = "balanced") then
    match native with
    | some r => { r with engine := "rust_native" }
    | none => ownSecureFallback data
  else
    ownSecureFallback data

/-- The result record of `ILNEssenceEngine.chan_parallel` (timing
fields elided). -/
structure ParResult where
  results : List String
  worker_count : Nat
  goroutines : Nat
  engine : String

/-- The `process_chunk` closure inside `chan_parallel`:
`f"python_worker_{chunk_id}_processed_{data[:10]}"`. -/
def process_chunk (data : String) (chunk_id : Nat) : String :=
  "python_worker_" ++ toString chunk_id ++ "_processed_" ++ data.take 10

/-- The list of chunk results in submission order: `process_chunk i`
for `i in range(workers)`. -/
def chanParallelSubmitted (data : String) (workers : Nat) : List String :=
  (List.range workers).map (process_chunk data)

/-- The fallback branch of `chan_parallel`.  `as_completed` yields the
futures in nondeterministic completion order, so the observable
`results` list is any permutation of the submitted chunk results; the
remaining fields are deterministic. -/
def ChanParallelFallback (data : String) (workers : Nat) (out : ParResult) : Prop :=
  out.results.Perm (chanParallelSubmitted data workers) ∧
  out.worker_count = workers ∧
  out.goroutines = workers ∧
  out.engine = "python_asyncio_fallback"

/-- `ILNEssenceEngine.chan_parallel`: attempt the native Go call only
when the Go capability is present; a raising native call
(`native = none`) falls back. -/
def ChanParallel (caps : Capabilities) (native : Option ParResult)
    (data : String) (workers : Nat) (out : ParResult) : Prop :=
  if caps.go = true then
    match native with
    | some r => out = { r with engine := "go_native" }
    | none => ChanParallelFallback data workers out
  else
    ChanParallelFallback data workers out

/-! ## Engine state, metrics and endpoints -/

/-- The `performance_metrics` dictionary initialised in
`ILNEssenceEngine.__init__`. -/
structure PerfMetrics where
  requests_processed : Nat
  average_response_time : ℚ
  memory_usage_mb : ℚ
  cpu_usage_percent : ℚ

/-- The initial metrics: all counters zero. -/
def initMetrics : PerfMetrics :=
  { requests_processed := 0, average_response_time := 0
    memory_usage_mb := 0, cpu_usage_percent := 0 }

/-- The process-wide `iln_engine` state: detected capabilities plus the
mutable metrics dictionary. -/
structure EngineState where
  capabilities : Capabilities
  performance_metrics : PerfMetrics

/-- The record returned by `ILNEssenceEngine.get_system_metrics`.
Memory, CPU, thread and file counts come from `psutil` probes of the
live process, so they are parameters of the embedding. -/
structure SystemMetrics where
  memory_usage_mb : ℚ
  cpu_percent : ℚ
  threads : Nat
  open_files : Nat
  capabilities : Capabilities
  requests_processed : Nat

/-- `ILNEssenceEngine.get_system_metrics`: a pure read of process
probes and the request counter; it mutates nothing. -/
def get_system_metrics (st : EngineState) (mem cpu : ℚ) (threads openFiles : Nat) :
    SystemMetrics :=
  { memory_usage_mb := mem, cpu_percent := cpu, threads := threads
    open_files := openFiles, capabilities := st.capabilities
    requests_processed := st.performance_metrics.requests_processed }

/-- The response of `GET /health`. -/
structure HealthResponse where
  status : String
  architecture : String
  capabilities : Capabilities
  performance : PerfMetrics
  system_metrics : SystemMetrics
  docker_optimized : Bool

/-- The `health_check` handler of `GET /health`: a constant `healthy`
status alongside state snapshots. -/
def health_check (st : EngineState) (mem cpu : ℚ) (threads openFiles : Nat) :
    HealthResponse :=
  { status := "healthy"
    architecture := "ILN Advanced Multi-Language"
    capabilities := st.capabilities
    performance := st.performance_metrics
    system_metrics := get_system_metrics st mem cpu threads openFiles
    docker_optimized := true }

/-- The pydantic request model `ILNProcessingRequest`. -/
structure ILNProcessingRequest where
  data : String
  processing_mode : String
  use_native_libs : Bool
  workers : Nat
  benchmark : Bool

/-- The `valid_modes` list of `ILNProcessingRequest.validate_mode`. -/
def valid_modes : List String := ["secure", "fast", "reactive", "balanced", "benchmark"]

/-- `ILNProcessingRequest.validate_mode`: raise a `ValueError` unless
the mode is in `valid_modes`.  FastAPI runs pydantic validators while
parsing the request body, before the endpoint function. -/
def validate_mode (v : String) : Except String String :=
  if v ∈ valid_modes then Except.ok v
  else Except.error "Mode must be one of: secure, fast, reactive, balanced, benchmark"

/-- The metrics update performed by the `process_advanced` handler:
increment `requests_processed`, then fold the total time into the
running `average_response_time` via
`(avg * (n - 1) + total_time) / n` with `n` the incremented count. -/
def process_advanced_metrics (m : PerfMetrics) (total_time : ℚ) : PerfMetrics :=
  let n := m.requests_processed + 1
  { m with
    requests_processed := n
    average_response_time := (m.average_response_time * ((n : ℚ) - 1) + total_time) / (n : ℚ) }

/-- The `original_data` field built in the `process_advanced` return:
`request.data[:100] + "..." if len(request.data) > 100 else request.data`. -/
def original_data_of (data : String) : String :=
  if data.length > 100 then data.take 100 ++ "..." else data

/-- The deterministic part of the `ILNProcessingResult` response
(per-essence result bundles and the timestamp elided: they are
nondeterministic and no claim depends on them). -/
structure ProcessResponse where
  status : String
  original_data : String
  processing_mode : String
  total_processing_time : ℚ

/-- The observable outcome of one `POST /process-advanced` request:
the engine state afterwards, which essence functions ran, and either a
response or a validation error. -/
structure HandlerOutcome where
  state : EngineState
  enginesRun : List String
  response : Except String ProcessResponse

/-- One `POST /process-advanced` request: pydantic validation first
(on failure the handler body never runs and the state is untouched),
then the counter increment, essence calls and metrics update of
`process_advanced`. -/
def handle_process_advanced (st : EngineState) (req : ILNProcessingRequest)
    (total_time : ℚ) : HandlerOutcome :=
  match validate_mode req.processing_mode with
  | Except.error e => { state := st, enginesRun := [], response := Except.error e }
  | Except.ok _ =>
    { state := { st with
        performance_metrics := process_advanced_metrics st.performance_metrics total_time }
      enginesRun := ["own_secure", "chan_parallel", "event_reactive"]
      response := Except.ok
        { status := "success"
          original_data := original_data_of req.data
          processing_mode := req.processing_mode
          total_processing_time := total_time } }

/-! ## The stress-test endpoint -/

/-- The failure modes of `GET /stress-test/{iterations}`: the explicit
`HTTPException(400)` guard, and an uncaught Python `ZeroDivisionError`
(which surfaces as a generic server error). -/
inductive StressError where
  | http400
  | zeroDivision

/-- The aggregate report returned by `stress_test` (sample results and
psutil metrics elided). -/
structure StressResponse where
  status : String
  iterations : Nat
  total_time : ℚ
  average_time_per_iteration : ℚ
  requests_per_second : ℚ

/-- Python division: `x / y` raises `ZeroDivisionError` when `y = 0`. -/
def pyDiv (x y : ℚ) : Except StressError ℚ :=
  if y = 0 then Except.error StressError.zeroDivision else Except.ok (x / y)

/-- The `stress_test` handler.  The first component counts loop
iterations actually executed; `total_time` is the measured wall-clock
duration.  The `> 100` guard fires before the loop; afterwards the
response dictionary computes `total_time / iterations` and then
`iterations / total_time`, each a potential `ZeroDivisionError`. -/
def stress_test (iterations : Nat) (total_time : ℚ) :
    Nat × Except StressError StressResponse :=
  if iterations > 100 then (0, Except.error StressError.http400)
  else
    (iterations,
      match pyDiv total_time (iterations : ℚ) with
      | Except.error e => Except.error e
      | Except.ok avg =>
        match pyDiv (iterations : ℚ) total_time with
        | Except.error e => Except.error e
        | Except.ok rps =>
          Except.ok
            { status := "completed", iterations := iterations, total_time := total_time
              average_time_per_iteration := avg, requests_per_second := rps })

/-! ## Endpoint sequences -/

/-- One observable endpoint invocation, with its environment inputs
(wall-clock durations, psutil probe values) as parameters. -/
inductive Op where
  | processAdvanced (req : ILNProcessingRequest) (total_time : ℚ)
  | getMetrics (mem cpu : ℚ) (threads openFiles : Nat)
  | healthCheck (mem cpu : ℚ) (threads openFiles : Nat)
  | getCapabilities
  | stressTest (iterations : Nat) (total_time : ℚ)

/-- The effect of one endpoint invocation on the engine state: only
`process_advanced` writes `performance_metrics`; every other endpoint
is a pure read. -/
def stepOp (st : EngineState) : Op → EngineState
  | Op.processAdvanced req t => (handle_process_advanced st req t).state
  | Op.getMetrics _ _ _ _ => st
  | Op.healthCheck _ _ _ _ => st
  | Op.getCapabilities => st
  | Op.stressTest _ _ => st

/-- The engine state after a sequence of endpoint invocations. -/
def runOps (st : EngineState) (ops : List Op) : EngineState := ops.foldl stepOp st

/-- The metrics state after `n` successful `POST /process-advanced`
requests with the given total times, starting from the initial
zeroed metrics. -/
def run_process_advanced (ts : List ℚ) : PerfMetrics :=
  ts.foldl process_advanced_metrics initMetrics

/-! ## Concrete instances used to exercise the theorems -/

/-- The capability record detected in a container with no native
libraries: only Python, async and database support. -/
def capsPy : Capabilities := ⟨false, false, true, false, true, true⟩

/-- A freshly started engine with no native capabilities. -/
def st0 : EngineState := ⟨capsPy, initMetrics⟩

/-- A fallback output of `chan_parallel` for input `hello` with three
workers, completing in submission order. -/
def outHello3 : ParResult := ⟨chanParallelSubmitted "hello" 3, 3, 3, "python_asyncio_fallback"⟩

/-- A fallback output of `chan_parallel` for input `x` with one worker. -/
def outX1 : ParResult := ⟨chanParallelSubmitted "x" 1, 1, 1, "python_asyncio_fallback"⟩

/-- A 103-character input, 100 letters followed by three dots, whose
truncated echo reproduces it exactly. -/
def echoInput : String := String.mk (List.replicate 100 'a') ++ "..."

/-- A small valid processing request. -/
def reqShort : ILNProcessingRequest := ⟨"hi", "balanced", true, 4, false⟩

/-- A fallback output of `chan_parallel` for one 12-character input
with two workers. -/
def outFirst : ParResult := ⟨chanParallelSubmitted "0123456789AB" 2, 2, 2, "python_asyncio_fallback"⟩

/-- A fallback output of `chan_parallel` for a second input agreeing
with the first on its first ten characters. -/
def outSecond : ParResult := ⟨chanParallelSubmitted "0123456789CD" 2, 2, 2, "python_asyncio_fallback"⟩

end ILN

namespace ILN

/-! ## Helper lemmas -/

/-- The character count of a string is the length of its character list. -/
theorem string_length_data (s : String) : s.length = s.data.length := rfl

/-- The character count of `String.take`. -/
theorem string_length_take (s : String) (n : Nat) : (s.take n).length = min n s.length := by
  rw [string_length_data, String.data_take, List.length_take, string_length_data]

/-- No single endpoint invocation decreases the request counter. -/
theorem counter_le_stepOp (st : EngineState) (op : Op) :
    st.performance_metrics.requests_processed ≤
      (stepOp st op).performance_metrics.requests_processed := by
  cases op with
  | processAdvanced req t =>
    unfold stepOp handle_process_advanced
    cases hv : validate_mode req.processing_mode with
    | error e => simp [hv]
    | ok v =>
      simp only [hv, process_advanced_metrics]
      exact Nat.le_succ _
  | getMetrics mem cpu th fo => exact le_refl _
  | healthCheck mem cpu th fo => exact le_refl _
  | getCapabilities => exact le_refl _
  | stressTest n t => exact le_refl _

/-- No sequence of endpoint invocations decreases the request counter. -/
theorem counter_le_runOps (st : EngineState) (ops : List Op) :
    st.performance_metrics.requests_processed ≤
      (runOps st ops).performance_metrics.requests_processed := by
  induction ops generalizing st with
  | nil => exact le_refl _
  | cons op ops ih =>
    exact le_trans (counter_le_stepOp st op) (ih (stepOp st op))

/-- Invariant of the running-average fold: the counter advances by the
number of processed requests, and the average times the final counter
accumulates the sum of the processed total times. -/
theorem run_pa_inv (ts : List ℚ) (m : PerfMetrics) :
    (ts.foldl process_advanced_metrics m).requests_processed = m.requests_processed + ts.length ∧
    (ts.foldl process_advanced_metrics m).average_response_time *
        ((m.requests_processed + ts.length : Nat) : ℚ) =
      m.average_response_time * (m.requests_processed : ℚ) + ts.sum := by
  induction ts generalizing m with
  | nil => simp
  | cons t ts ih =>
    have hne : ((m.requests_processed + 1 : Nat) : ℚ) ≠ 0 :=
      Nat.cast_ne_zero.mpr (Nat.succ_ne_zero _)
    have hreq : (process_advanced_metrics m t).requests_processed = m.requests_processed + 1 := rfl
    have havg : (process_advanced_metrics m t).average_response_time *
        ((m.requests_processed + 1 : Nat) : ℚ) =
        m.average_response_time * (m.requests_processed : ℚ) + t := by
      show ((m.average_response_time * (((m.requests_processed + 1 : Nat) : ℚ) - 1) + t) /
          ((m.requests_processed + 1 : Nat) : ℚ)) * ((m.requests_processed + 1 : Nat) : ℚ) =
        m.average_response_time * (m.requests_processed : ℚ) + t
      rw [div_mul_cancel₀ _ hne]
      push_cast
      ring
    obtain ⟨h1, h2⟩ := ih (process_advanced_metrics m t)
    rw [List.foldl_cons]
    constructor
    · rw [h1, hreq, List.length_cons]
      omega
    · have hlen : m.requests_processed + (t :: ts).length =
          (process_advanced_metrics m t).requests_processed + ts.length := by
        rw [hreq, List.length_cons]
        omega
      rw [hlen, h2, hreq, havg, List.sum_cons]
      ring

set_option maxRecDepth 1000000 in
set_option maxHeartbeats 1000000 in
/-- FIPS 180-4 test vector: the embedded SHA-256 digests `abc` correctly. -/
theorem sha256Hex_testvector_abc :
    sha256Hex (utf8Encode "abc") =
      "ba7816bf8f01cfea414140de5dae2223b00361a396177a9cb410ff61f20015ad" := by decide

set_option maxRecDepth 1000000 in
set_option maxHeartbeats 1000000 in
/-- FIPS 180-4 test vector: the embedded SHA-256 digests the empty
string correctly. -/
theorem sha256Hex_testvector_empty :
    sha256Hex (utf8Encode "") =
      "e3b0c44298fc1c149afbf4c8996fb92427ae41e4649b934ca495991b7852b855" := by decide

/-! ## Claims -/

/-- C1 (corrected): for `GET /stress-test/{iterations}`, a request with
more than 100 iterations is rejected with HTTP 400 before any iteration
runs; but a request with 0 iterations does NOT return a degenerate
success: it runs zero iterations and then raises a division-by-zero
error while computing `average_time_per_iteration`. -/
theorem stress_test_guard_and_zero_division (iterations : Nat) (t : ℚ) :
    (100 < iterations → stress_test iterations t = (0, Except.error StressError.http400)) ∧
    (stress_test 0 t).1 = 0 ∧
    (stress_test 0 t).2 = Except.error StressError.zeroDivision := by
  refine ⟨fun h => ?_, ?_, ?_⟩
  · unfold stress_test
    rw [if_pos h]
  · unfold stress_test
    rw [if_neg (by omega)]
  · unfold stress_test pyDiv
    rw [if_neg (by omega)]
    norm_num

/-- C1 witness: 101 iterations are rejected with the HTTP 400 guard. -/
theorem stress_test_guard_witness :
    100 < 101 ∧ stress_test 101 1 = (0, Except.error StressError.http400) :=
  ⟨by decide, (stress_test_guard_and_zero_division 101 1).1 (by decide)⟩

/-- C1 counterexample: `/stress-test/0` executes zero iterations and
produces a `ZeroDivisionError`, not a success response, refuting the
claim that it returns a degenerate zero-iteration success. -/
theorem stress_test_zero_not_success :
    (stress_test 0 1).1 = 0 ∧
    (stress_test 0 1).2 = Except.error StressError.zeroDivision ∧
    (stress_test 0 1).2.isOk = false := by
  refine ⟨rfl, ?_, ?_⟩ <;> norm_num [stress_test, pyDiv, Except.isOk, Except.toBool]

/-- C2: a request whose `processing_mode` is outside the five-element
`valid_modes` list is rejected by validation with an error before the
handler body runs: the engine state (hence the request counter) is
unchanged and no essence function is invoked. -/
theorem invalid_mode_rejected (st : EngineState) (req : ILNProcessingRequest) (t : ℚ)
    (h : req.processing_mode ∉ valid_modes) :
    (handle_process_advanced st req t).state = st ∧
    (handle_process_advanced st req t).enginesRun = [] ∧
    (handle_process_advanced st req t).state.performance_metrics.requests_processed =
      st.performance_metrics.requests_processed ∧
    ∃ e, (handle_process_advanced st req t).response = Except.error e := by
  unfold handle_process_advanced validate_mode
  rw [if_neg h]
  exact ⟨rfl, rfl, rfl, _, rfl⟩

/-- C2 witness: the unrecognised mode `turbo` is rejected with the
state untouched and no essence function run. -/
theorem invalid_mode_rejected_witness :
    "turbo" ∉ valid_modes ∧
    (handle_process_advanced st0 ⟨"hello", "turbo", true, 4, false⟩ 0).state = st0 ∧
    (handle_process_advanced st0 ⟨"hello", "turbo", true, 4, false⟩ 0).enginesRun = [] :=
  ⟨by decide,
   (invalid_mode_rejected st0 ⟨"hello", "turbo", true, 4, false⟩ 0 (by decide)).1,
   (invalid_mode_rejected st0 ⟨"hello", "turbo", true, 4, false⟩ 0 (by decide)).2.1⟩

/-- C3: the secure fallback path of `own_secure` is deterministic in
its input — equal inputs give equal results — and its `secure_hash` is
the first 16 hex characters of the SHA-256 digest of the UTF-8 encoded
input, with `length` the input length. -/
theorem own_secure_fallback_deterministic (d1 d2 : String) (h : d1 = d2) :
    ownSecureFallback d1 = ownSecureFallback d2 ∧
    (ownSecureFallback d1).secure_hash = (sha256Hex (utf8Encode d1)).take 16 ∧
    (ownSecureFallback d1).length = d1.length := by
  subst h
  refine ⟨rfl, ?_, ?_⟩ <;> simp only [ownSecureFallback]

set_option maxRecDepth 1000000 in
set_option maxHeartbeats 1000000 in
/-- C3 witness: on input `abc` the fallback hash is the truncated
SHA-256 test-vector digest and the length is 3. -/
theorem own_secure_fallback_deterministic_witness :
    (ownSecureFallback "abc").secure_hash = "ba7816bf8f01cfea" ∧
    (ownSecureFallback "abc").length = 3 :=
  ⟨((own_secure_fallback_deterministic "abc" "abc" rfl).2.1).trans (by decide),
   ((own_secure_fallback_deterministic "abc" "abc" rfl).2.2).trans rfl⟩

/-- C4: for any input and any worker count in `[1, 16]`, every
observable output of the `chan_parallel` fallback has exactly `workers`
entries in `results` and reports `worker_count = workers`. -/
theorem chan_parallel_fallback_count (data : String) (workers : Nat) (out : ParResult)
    (_h1 : 1 ≤ workers) (_h16 : workers ≤ 16)
    (h : ChanParallelFallback data workers out) :
    out.results.length = workers ∧ out.worker_count = workers := by
  obtain ⟨hp, hw, -, -⟩ := h
  refine ⟨?_, hw⟩
  rw [hp.length_eq]
  simp [chanParallelSubmitted]

/-- C4 witness: three workers on input `hello` give three results. -/
theorem chan_parallel_fallback_count_witness :
    (1 ≤ 3 ∧ 3 ≤ 16) ∧ outHello3.results.length = 3 ∧ outHello3.worker_count = 3 :=
  ⟨⟨by decide, by decide⟩,
   chan_parallel_fallback_count "hello" 3 outHello3 (by decide) (by decide)
     ⟨List.Perm.refl _, rfl, rfl, rfl⟩⟩

/-- C5: the request counter is monotone over every sequence of endpoint
invocations, `GET /metrics` leaves the engine state unchanged, and the
metrics it reports read the counter exactly — so repeated `/metrics`
reads never observe a smaller counter value. -/
theorem requests_processed_monotone (st : EngineState) (ops : List Op)
    (mem cpu : ℚ) (threads openFiles : Nat) :
    stepOp st (Op.getMetrics mem cpu threads openFiles) = st ∧
    (get_system_metrics st mem cpu threads openFiles).requests_processed =
      st.performance_metrics.requests_processed ∧
    st.performance_metrics.requests_processed ≤
      (runOps st ops).performance_metrics.requests_processed :=
  ⟨rfl, rfl, counter_le_runOps st ops⟩

/-- C6: the `/health` endpoint reports status `healthy` in every engine
state — no capability or counter configuration flips it. -/
theorem health_always_healthy (st : EngineState) (mem cpu : ℚ) (threads openFiles : Nat) :
    (health_check st mem cpu threads openFiles).status = "healthy" := rfl

/-- C7: when the native Rust capability is absent or its invocation
raises, `own_secure` returns the in-process fallback tagged
`python_fallback`; when the native Go capability is absent or its
invocation raises, every `chan_parallel` outcome is the fallback tagged
`python_asyncio_fallback`.  Neither failure propagates. -/
theorem native_failure_falls_back (caps : Capabilities) (nr : Option SecResult)
    (ng : Option ParResult) (data mode : String) (workers : Nat) (out : ParResult) :
    ((caps.rust = false ∨ nr = none) →
      own_secure caps nr data mode = ownSecureFallback data ∧
      (own_secure caps nr data mode).engine = "python_fallback") ∧
    ((caps.go = false ∨ ng = none) → ChanParallel caps ng data workers out →
      ChanParallelFallback data workers out ∧ out.engine = "python_asyncio_fallback") := by
  constructor
  · intro h
    have heq : own_secure caps nr data mode = ownSecureFallback data := by
      unfold own_secure
      rcases h with h | h
      · rw [if_neg]
        simp [h]
      · subst h
        by_cases hc : caps.rust = true ∧ (mode = "secure" ∨ mode = "balanced")
        · rw [if_pos hc]
        · rw [if_neg hc]
    refine ⟨heq, ?_⟩
    rw [heq]
    rfl
  · intro h hcp
    unfold ChanParallel at hcp
    have hfb : ChanParallelFallback data workers out := by
      rcases h with h | h
      · rwa [if_neg (by simp [h])] at hcp
      · subst h
        by_cases hg : caps.go = true
        · rwa [if_pos hg] at hcp
        · rwa [if_neg hg] at hcp
    exact ⟨hfb, hfb.2.2.2⟩

/-- C7 witness: with no native capabilities detected, `own_secure`
returns the Python fallback and the `chan_parallel` outcome carries the
asyncio fallback engine tag. -/
theorem native_failure_falls_back_witness :
    capsPy.rust = false ∧ capsPy.go = false ∧
    own_secure capsPy none "x" "balanced" = ownSecureFallback "x" ∧
    outX1.engine = "python_asyncio_fallback" := by
  have h := native_failure_falls_back capsPy none none "x" "balanced" 1 outX1
  have hrel : ChanParallel capsPy none "x" 1 outX1 := by
    unfold ChanParallel
    rw [if_neg (by decide)]
    exact ⟨List.Perm.refl _, rfl, rfl, rfl⟩
  exact ⟨rfl, rfl, (h.1 (Or.inl rfl)).1, (h.2 (Or.inl rfl) hrel).2⟩

/-- C8: after `n` successful `POST /process-advanced` requests with
total times `t_1 ... t_n`, starting from zeroed metrics, the counter is
`n` and the stored running average equals the arithmetic mean of the
times (exact rational arithmetic; for `n = 0` both sides are zero). -/
theorem process_advanced_running_average (ts : List ℚ) :
    (run_process_advanced ts).requests_processed = ts.length ∧
    (run_process_advanced ts).average_response_time = ts.sum / (ts.length : ℚ) := by
  unfold run_process_advanced
  obtain ⟨h1, h2⟩ := run_pa_inv ts initMetrics
  simp only [initMetrics] at h1 h2
  rw [Nat.zero_add] at h1
  refine ⟨h1, ?_⟩
  rcases eq_or_ne ts.length 0 with h | h
  · have hts : ts = [] := List.length_eq_zero.mp h
    subst hts
    simp [initMetrics]
  · have hcast : ((ts.length : Nat) : ℚ) ≠ 0 := Nat.cast_ne_zero.mpr h
    rw [eq_div_iff hcast]
    simpa using h2

/-- C9 (corrected): a successful `POST /process-advanced` response
echoes `data` verbatim when it has at most 100 characters and otherwise
returns the first 100 characters followed by three dots; an input
longer than 103 characters is therefore never echoed in full, but an
input of exactly 103 characters ending in the three dots is. -/
theorem original_data_truncation (st : EngineState) (req : ILNProcessingRequest) (t : ℚ)
    (resp : ProcessResponse)
    (h : (handle_process_advanced st req t).response = Except.ok resp) :
    (req.data.length ≤ 100 → resp.original_data = req.data) ∧
    (100 < req.data.length → resp.original_data = req.data.take 100 ++ "...") ∧
    (103 < req.data.length → resp.original_data ≠ req.data) := by
  have hod : resp.original_data = original_data_of req.data := by
    unfold handle_process_advanced at h
    cases hv : validate_mode req.processing_mode with
    | error e =>
      rw [hv] at h
      simp at h
    | ok v =>
      rw [hv] at h
      simp only [Except.ok.injEq] at h
      rw [← h]
  refine ⟨fun hle => ?_, fun hgt => ?_, fun hgt => ?_⟩
  · rw [hod]
    unfold original_data_of
    rw [if_neg (by omega)]
  · rw [hod]
    unfold original_data_of
    rw [if_pos hgt]
  · rw [hod]
    unfold original_data_of
    rw [if_pos (by omega)]
    intro heq
    have hlen := congrArg String.length heq
    rw [String.length_append, string_length_take] at hlen
    have h3 : ("..." : String).length = 3 := by decide
    rw [h3] at hlen
    omega

/-- C9 witness: a short input is echoed verbatim. -/
theorem original_data_truncation_witness :
    (handle_process_advanced st0 reqShort 0).response =
      Except.ok { status := "success", original_data := "hi",
                  processing_mode := "balanced", total_processing_time := 0 } ∧
    ({ status := "success", original_data := "hi", processing_mode := "balanced",
       total_processing_time := 0 } : ProcessResponse).original_data = "hi" := by
  refine ⟨rfl, ?_⟩
  exact (original_data_truncation st0 reqShort 0 _ rfl).1 (by decide)

set_option maxRecDepth 1000000 in
/-- C9 counterexample: `echoInput` has 103 characters, more than 100,
yet `original_data_of` returns it unchanged — the full input IS echoed
back, refuting the claim that inputs over 100 characters never are. -/
theorem truncation_echo_counterexample :
    echoInput.length = 103 ∧ 100 < echoInput.length ∧
    original_data_of echoInput = echoInput := by
  refine ⟨by decide, by decide, by decide⟩

/-- C10: every observable `results` list of the `chan_parallel`
fallback is a permutation of the strings
`python_worker_{i}_processed_` followed by the first ten characters of
the input, for `i` below `workers`; hence two inputs agreeing on their
first ten characters yield the same multiset of results. -/
theorem chan_parallel_results_characterised (data data' : String) (workers : Nat)
    (out out' : ParResult) (_h1 : 1 ≤ workers)
    (h : ChanParallelFallback data workers out) :
    out.results.Perm ((List.range workers).map fun i =>
        "python_worker_" ++ toString i ++ "_processed_" ++ data.take 10) ∧
    (data.take 10 = data'.take 10 → ChanParallelFallback data' workers out' →
      (out.results : Multiset String) = (out'.results : Multiset String)) := by
  have hfun : process_chunk data = fun i =>
      "python_worker_" ++ toString i ++ "_processed_" ++ data.take 10 := by
    funext i
    simp only [process_chunk]
  have hmap : chanParallelSubmitted data workers =
      (List.range workers).map fun i =>
        "python_worker_" ++ toString i ++ "_processed_" ++ data.take 10 := by
    unfold chanParallelSubmitted
    rw [hfun]
  constructor
  · rw [← hmap]
    exact h.1
  intro h10 h'
  have hfun' : process_chunk data' = fun i =>
      "python_worker_" ++ toString i ++ "_processed_" ++ data'.take 10 := by
    funext i
    simp only [process_chunk]
  have hsub : chanParallelSubmitted data workers = chanParallelSubmitted data' workers := by
    unfold chanParallelSubmitted
    rw [hfun, hfun', h10]
  have hp : out'.results.Perm (chanParallelSubmitted data workers) := by
    rw [hsub]
    exact h'.1
  exact Multiset.coe_eq_coe.mpr (h.1.trans hp.symm)

/-- C10 witness: two 12-character inputs agreeing on their first ten
characters give the same multiset of worker results. -/
theorem chan_parallel_results_characterised_witness :
    ("0123456789AB" : String).take 10 = ("0123456789CD" : String).take 10 ∧
    (outFirst.results : Multiset String) = (outSecond.results : Multiset String) :=
  ⟨by decide,
   (chan_parallel_results_characterised "0123456789AB" "0123456789CD" 2 outFirst outSecond
      (by decide) ⟨List.Perm.refl _, rfl, rfl, rfl⟩).2 (by decide)
     ⟨List.Perm.refl _, rfl, rfl, rfl⟩⟩

end ILN
